import Mathlib

/-!
Verification development for the SIA environmental-monitoring dashboard.

The repository fetches per-day JSON summary files, aggregates them over a
selected time range (day / week / month / year) and renders totals and a
time series.  This file gives a shallow embedding of the aggregation code:

* the per-date fetch helper (safeFetchJson in
  Kirill_Website2.0.1/common/js/dataLoader.js),
* the four range loaders of dataLoader.js (loadDayData, loadWeekData,
  loadMonthData, loadYearData) including their all-zeros fallback,
* the app.js variant loadWeekRange (src/unnamed/part_000), which pads the
  week series,
* the public.js variant of loadYearData (src/unnamed/part_001), which
  divides the month temperature sum by the number of days in the month,
* the loudness (dB) aggregators of lautstaerke.js (Kirill_Website) and of
  the app.js bundle (part_000), with the level-classification table,
* the normalize step of src/unnamed/part_004.

Numbers are modelled by the rationals; JSON numeric fields that may be
absent are modelled by Option.  Dates are modelled by their epoch day
number (an integer), with the JS Date.getDay convention that day 0
(1970-01-01) was a Thursday.
-/

namespace SIA

/-- One fetched totals.json record, as the range loaders read it.
Fields that the code accesses are modelled; a field holds some value when
the JSON object has that key with a numeric value, and none when the key
is absent.  (Mirrors the DailySummary shape of the data files.) -/
structure AvgSensorDay where
  temp : Option ℚ
  db : Option ℚ
  deriving DecidableEq, Repr

structure TotalsJson where
  good : Option ℚ
  meh : Option ℚ
  bad : Option ℚ
  avg_sensor_day : Option AvgSensorDay
  db : Option ℚ
  deriving DecidableEq, Repr

/-- Outcome of one HTTP fetch of a JSON file: the fetch call can throw
(network error), return a non-ok status, deliver a body that fails to
parse as JSON, or deliver a parsed record. -/
inductive FetchOutcome where
  | fetchErr
  | httpErr
  | badJson
  | ok (data : TotalsJson)
  deriving DecidableEq, Repr

/-- safeFetchJson (dataLoader.js): try/catch around fetch, returns null
on a thrown error, on a non-ok response, and on a JSON parse failure;
otherwise the parsed record. -/
def safeFetchJson : FetchOutcome → Option TotalsJson
  | .fetchErr => none
  | .httpErr => none
  | .badJson => none
  | .ok data => some data

/-- The JS expression (x || 0) on a possibly-absent numeric field: an
absent field (undefined) is falsy and yields 0, as does the number 0
itself; both collapse to 0 here. -/
def orZero : Option ℚ → ℚ
  | none => 0
  | some v => v

/-- The JS expression (data.avg_sensor_day ? data.avg_sensor_day.temp : 0)
used for a series entry: when avg_sensor_day is absent the entry is the
number 0; when it is present the entry is its temp member, which is the
JS value undefined (modelled none) when that key is missing. -/
def tempEntry (data : TotalsJson) : Option ℚ :=
  match data.avg_sensor_day with
  | some a => a.temp
  | none => some 0

/-- Math.round of JS: round to nearest, halves toward positive infinity. -/
def jsRound (q : ℚ) : ℤ := ⌊q + 1 / 2⌋

/-- Result handed by a dataLoader.js range loader to updateChartAndHTML:
the three totals and the line-chart series.  A series slot holds none
when the code pushed the JS value undefined. -/
structure RangeResult where
  good : ℚ
  meh : ℚ
  bad : ℚ
  series : List (Option ℚ)
  deriving DecidableEq, Repr

/-- The shared per-date loop body of loadWeekData / loadMonthData
(dataLoader.js): for each date in order, fetch; on success add
(json.good || 0) etc. to the totals and push the temp entry, on failure
push 0 and leave the totals unchanged.  The loop never aborts: every
date of the list is processed. -/
def rangeLoop (fetch : ℤ → FetchOutcome) : List ℤ → ℚ × ℚ × ℚ × List (Option ℚ)
  | [] => (0, 0, 0, [])
  | d :: rest =>
    let (g, me, b, s) := rangeLoop fetch rest
    match safeFetchJson (fetch d) with
    | some data =>
        (orZero data.good + g, orZero data.meh + me, orZero data.bad + b,
         tempEntry data :: s)
    | none => (g, me, b, (some 0) :: s)

/-- The all-zeros test of dataLoader.js: lineDataArray.every of
(v) => (v === 0). -/
def allZeros (s : List (Option ℚ)) : Bool := s.all (· = some 0)

/-- The series entry pushed for one date by the week/month loops of
dataLoader.js: the temp entry of the fetched record, or 0 when the
fetch yielded nothing. -/
def rangeEntry (fetch : ℤ → FetchOutcome) (d : ℤ) : Option ℚ :=
  match safeFetchJson (fetch d) with
  | some data => tempEntry data
  | none => some 0

-- ---------------------------------------------------------------
-- Date model: JS dates as epoch day numbers.
-- ---------------------------------------------------------------

/-- Date.getDay of JS for a date given as an epoch day number:
0 = Sunday, ..., 6 = Saturday; epoch day 0 (1970-01-01) was a Thursday. -/
def jsGetDay (d : ℤ) : ℤ := (d + 4) % 7

/-- monday.setDate(today.getDate() - ((dayOfWeek + 6) % 7)) of
loadWeekData: the Monday of the ISO week of today. -/
def mondayOf (today : ℤ) : ℤ := today - (jsGetDay today + 6) % 7

/-- The dates enumerated by the week loop, for d from monday while
d <= today, stepping one day: Monday of the current ISO week through
today, in increasing order. -/
def weekDates (today : ℤ) : List ℤ :=
  (List.range (((jsGetDay today + 6) % 7).toNat + 1)).map
    (fun (i : ℕ) => mondayOf today + (i : ℤ))

-- ---------------------------------------------------------------
-- The four range loaders of dataLoader.js (Kirill_Website2.0.1).
-- ---------------------------------------------------------------

/-- loadDayData (dataLoader.js): fetch today, fall back to the
department-level totals.json when that fails, and render a 24-entry
series uniformly filled with the day temperature (0/0/0 and a zero fill
when both fetches fail). -/
def loadDayData (todayFetch fallback : FetchOutcome) : RangeResult :=
  match safeFetchJson todayFetch with
  | some data =>
      ⟨orZero data.good, orZero data.meh, orZero data.bad,
       List.replicate 24 (tempEntry data)⟩
  | none =>
    match safeFetchJson fallback with
    | some data =>
        ⟨orZero data.good, orZero data.meh, orZero data.bad,
         List.replicate 24 (tempEntry data)⟩
    | none => ⟨0, 0, 0, List.replicate 24 (some 0)⟩

/-- loadWeekData (dataLoader.js): loop over Monday..today; when every
series entry is exactly 0, consult the department-level totals.json and,
when it parses, substitute its totals and a uniform 7-entry fill
(7 = number of week labels). -/
def loadWeekData (today : ℤ) (fetch : ℤ → FetchOutcome)
    (fallback : FetchOutcome) : RangeResult :=
  let (g, me, b, s) := rangeLoop fetch (weekDates today)
  if allZeros s then
    match safeFetchJson fallback with
    | some base =>
        ⟨orZero base.good, orZero base.meh, orZero base.bad,
         List.replicate 7 (tempEntry base)⟩
    | none => ⟨g, me, b, s⟩
  else ⟨g, me, b, s⟩

/-- The dates of the month loop of loadMonthData: day 1 through
daysInMonth, as date keys. -/
def monthDates (daysInMonth : ℕ) : List ℤ :=
  (List.range' 1 daysInMonth).map (fun (d : ℕ) => (d : ℤ))

/-- loadMonthData (dataLoader.js): loop over day 1..daysInMonth of the
current month; same all-zeros fallback, with a daysInMonth-entry uniform
fill. -/
def loadMonthData (daysInMonth : ℕ) (fetch : ℤ → FetchOutcome)
    (fallback : FetchOutcome) : RangeResult :=
  let (g, me, b, s) := rangeLoop fetch (monthDates daysInMonth)
  if allZeros s then
    match safeFetchJson fallback with
    | some base =>
        ⟨orZero base.good, orZero base.meh, orZero base.bad,
         List.replicate daysInMonth (tempEntry base)⟩
    | none => ⟨g, me, b, s⟩
  else ⟨g, me, b, s⟩

-- ---------------------------------------------------------------
-- Days in a month: new Date(year, month, 0).getDate() of JS.
-- ---------------------------------------------------------------

/-- Gregorian leap-year rule, as implemented by the JS Date object. -/
def isLeapYear (year : ℤ) : Bool :=
  year % 4 = 0 && (year % 100 ≠ 0 || year % 400 = 0)

/-- new Date(year, month, 0).getDate(): the number of days of month m
(1..12) of the given year. -/
def daysInMonth (year : ℤ) (m : ℕ) : ℕ :=
  if m = 2 then (if isLeapYear year then 29 else 28)
  else if m = 4 ∨ m = 6 ∨ m = 9 ∨ m = 11 then 30
  else 31

-- ---------------------------------------------------------------
-- loadYearData (dataLoader.js, Kirill_Website2.0.1).
-- ---------------------------------------------------------------

/-- The inner day loop of loadYearData (dataLoader.js) over one month:
accumulates the month totals and, for days whose record has a numeric
avg_sensor_day.temp, the temperature sum and count. -/
def monthStats (fetch : ℕ → ℕ → FetchOutcome) (m : ℕ) :
    List ℕ → ℚ × ℚ × ℚ × ℚ × ℕ
  | [] => (0, 0, 0, 0, 0)
  | d :: rest =>
    let (g, me, b, ts, tc) := monthStats fetch m rest
    match safeFetchJson (fetch m d) with
    | some data =>
      let (ts, tc) :=
        match data.avg_sensor_day with
        | some a => match a.temp with
          | some t => (ts + t, tc + 1)
          | none => (ts, tc)
        | none => (ts, tc)
      (orZero data.good + g, orZero data.meh + me, orZero data.bad + b, ts, tc)
    | none => (g, me, b, ts, tc)

/-- The month series entry pushed by loadYearData (dataLoader.js):
monthTempCount > 0 ? Math.round(monthTempSum / monthTempCount) : 0. -/
def yearMonthEntry (year : ℤ) (fetch : ℕ → ℕ → FetchOutcome) (m : ℕ) : ℤ :=
  let (_, _, _, ts, tc) := monthStats fetch m (List.range' 1 (daysInMonth year m))
  if tc > 0 then jsRound (ts / tc) else 0

/-- The outer month loop of loadYearData (dataLoader.js): month totals
are folded into the year totals and one rounded mean entry is pushed per
month. -/
def yearLoop (year : ℤ) (fetch : ℕ → ℕ → FetchOutcome) :
    List ℕ → ℚ × ℚ × ℚ × List (Option ℚ)
  | [] => (0, 0, 0, [])
  | m :: rest =>
    let (g, me, b, s) := yearLoop year fetch rest
    let (mg, mme, mb, _, _) := monthStats fetch m (List.range' 1 (daysInMonth year m))
    (mg + g, mme + me, mb + b, (some (yearMonthEntry year fetch m : ℚ)) :: s)

/-- loadYearData (dataLoader.js): months 1..12, with the same all-zeros
fallback as the week and month loaders (12-entry uniform fill). -/
def loadYearData (year : ℤ) (fetch : ℕ → ℕ → FetchOutcome)
    (fallback : FetchOutcome) : RangeResult :=
  let (g, me, b, s) := yearLoop year fetch (List.range' 1 12)
  if allZeros s then
    match safeFetchJson fallback with
    | some base =>
        ⟨orZero base.good, orZero base.meh, orZero base.bad,
         List.replicate 12 (tempEntry base)⟩
    | none => ⟨g, me, b, s⟩
  else ⟨g, me, b, s⟩

-- ---------------------------------------------------------------
-- JS double values where NaN and the infinities matter.
-- ---------------------------------------------------------------

/-- A JS number: a finite value, NaN, or one of the two infinities.
(Finite values are modelled exactly by rationals; double rounding and
overflow of arithmetic on finite values are not modelled.) -/
inductive JNum where
  | fin (q : ℚ)
  | nan
  | inf
  | ninf
  deriving DecidableEq, Repr

/-- JS addition on the extended number domain. -/
def jsAdd : JNum → JNum → JNum
  | .nan, _ => .nan
  | _, .nan => .nan
  | .inf, .ninf => .nan
  | .ninf, .inf => .nan
  | .inf, _ => .inf
  | _, .inf => .inf
  | .ninf, _ => .ninf
  | _, .ninf => .ninf
  | .fin a, .fin b => .fin (a + b)

/-- Division of a JS number by a positive integer count. -/
def jsDivNat (n : JNum) (c : ℕ) : JNum :=
  match n with
  | .fin q => .fin (q / c)
  | x => x

/-- Math.round on the extended number domain. -/
def jsRoundJ : JNum → JNum
  | .fin q => .fin (jsRound q)
  | x => x

/-- Truthiness of a JS number: 0 and NaN are falsy. -/
def jsTruthy : JNum → Bool
  | .fin q => q ≠ 0
  | .nan => false
  | .inf => true
  | .ninf => true

/-- The JS expression (a || b) on numbers. -/
def jsOr (a b : JNum) : JNum := if jsTruthy a then a else b

/-- Whether a JS number is a finite number. -/
def JNum.isFinite : JNum → Bool
  | .fin _ => true
  | _ => false

-- ---------------------------------------------------------------
-- public.js variant of loadYearData (src/unnamed/part_001).
-- ---------------------------------------------------------------

/-- The month temperature accumulator of the public.js loadYearData:
monthTemp += data.avg_sensor_day ? data.avg_sensor_day.temp : 0, where a
present avg_sensor_day without a temp key adds the JS value undefined
and so turns the accumulator into NaN.  A failed fetch or parse is
caught and adds nothing. -/
def publicMonthTemp (fetch : ℕ → ℕ → FetchOutcome) (m : ℕ) :
    List ℕ → JNum
  | [] => .fin 0
  | d :: rest =>
    let acc := publicMonthTemp fetch m rest
    match safeFetchJson (fetch m d) with
    | some data =>
      jsAdd acc
        (match data.avg_sensor_day with
         | some a => match a.temp with
           | some t => .fin t
           | none => .nan
         | none => .fin 0)
    | none => acc

/-- The series entry pushed per month by the public.js loadYearData:
Math.round(monthTemp / daysInMonth) — the divisor is the number of days
of the month, not the number of days that had data. -/
def publicYearMonthEntry (year : ℤ) (fetch : ℕ → ℕ → FetchOutcome)
    (m : ℕ) : JNum :=
  jsRoundJ (jsDivNat
    (publicMonthTemp fetch m (List.range' 1 (daysInMonth year m)))
    (daysInMonth year m))

/-- The 12-entry series of the public.js loadYearData. -/
def publicYearSeries (year : ℤ) (fetch : ℕ → ℕ → FetchOutcome) : List JNum :=
  (List.range' 1 12).map (publicYearMonthEntry year fetch)

-- ---------------------------------------------------------------
-- app.js variant loadWeekRange (src/unnamed/part_000).
-- ---------------------------------------------------------------

/-- The series entry of the app.js week/month loops:
totals.avg_sensor_day?.temp ?? 0 — always a number, 0 when the nested
temp is missing at either level. -/
def appTempEntry (data : TotalsJson) : ℚ :=
  (data.avg_sensor_day.bind (fun a => a.temp)).getD 0

/-- Result of an app.js range loader (its series entries are always
numbers, never undefined). -/
structure AppRangeResult where
  good : ℚ
  meh : ℚ
  bad : ℚ
  series : List ℚ
  deriving DecidableEq, Repr

/-- The per-date loop of loadWeekRange (app.js): on success accumulate
the totals and push the temp entry, on failure push 0. -/
def appWeekLoop (fetch : ℤ → FetchOutcome) : List ℤ → ℚ × ℚ × ℚ × List ℚ
  | [] => (0, 0, 0, [])
  | d :: rest =>
    let (g, me, b, s) := appWeekLoop fetch rest
    match safeFetchJson (fetch d) with
    | some data =>
        (orZero data.good + g, orZero data.meh + me, orZero data.bad + b,
         appTempEntry data :: s)
    | none => (g, me, b, 0 :: s)

/-- loadWeekRange (app.js): the Monday..today loop followed by the
padding loop, while temps.length < labels.length push 0, so the series
always has the 7 week labels worth of entries. -/
def loadWeekRange (today : ℤ) (fetch : ℤ → FetchOutcome) : AppRangeResult :=
  let (g, me, b, s) := appWeekLoop fetch (weekDates today)
  ⟨g, me, b, s ++ List.replicate (7 - s.length) 0⟩

-- ---------------------------------------------------------------
-- Loudness level classification (lautstaerke.js / part_000).
-- ---------------------------------------------------------------

/-- One classification band: icon element id, label, inclusive bounds. -/
structure Level where
  icon : String
  name : String
  min : ℤ
  max : ℤ
  deriving DecidableEq, Repr

/-- The fixed ascending band table lautstaerkeLevels. -/
def lautstaerkeLevels : List Level :=
  [⟨"icon-maus", "Maus", 0, 30⟩,
   ⟨"icon-sprechen", "Sprechen", 31, 50⟩,
   ⟨"icon-musik", "Musik", 51, 70⟩,
   ⟨"icon-auto", "Auto", 71, 90⟩,
   ⟨"icon-flugzeug", "Flugzeug", 91, 200⟩]

/-- lautstaerkeLevels.find of (l) => dbValue >= l.min && dbValue <= l.max:
the first band whose inclusive bounds contain the value. -/
def classify (dbValue : ℤ) : Option Level :=
  lautstaerkeLevels.find? (fun l => decide (l.min ≤ dbValue) && decide (dbValue ≤ l.max))

/-- The active flags of the five loudness icons in the page. -/
structure LautIcons where
  maus : Bool
  sprechen : Bool
  musik : Bool
  auto : Bool
  flugzeug : Bool
  deriving DecidableEq, Repr

/-- resetIcons: remove the active class from every loudness icon. -/
def resetIcons (_ : LautIcons) : LautIcons := ⟨false, false, false, false, false⟩

/-- document.getElementById(level.icon).classList.add("active"): set the
active flag of the icon with the given element id. -/
def addActive (iconId : String) (st : LautIcons) : LautIcons :=
  if iconId = "icon-maus" then { st with maus := true }
  else if iconId = "icon-sprechen" then { st with sprechen := true }
  else if iconId = "icon-musik" then { st with musik := true }
  else if iconId = "icon-auto" then { st with auto := true }
  else if iconId = "icon-flugzeug" then { st with flugzeug := true }
  else st

/-- updateLautstaerkeAnzeige acting on the icon states: reset all icons,
then activate the icon of the matched band, if any. -/
def updateLautstaerkeAnzeige (dbValue : ℤ) (st : LautIcons) : LautIcons :=
  let st := resetIcons st
  match classify dbValue with
  | some level => addActive level.icon st
  | none => st

/-- Number of icons in the active state. -/
def countActive (st : LautIcons) : ℕ :=
  (if st.maus then 1 else 0) + (if st.sprechen then 1 else 0) +
  (if st.musik then 1 else 0) + (if st.auto then 1 else 0) +
  (if st.flugzeug then 1 else 0)

-- ---------------------------------------------------------------
-- Per-date dB extraction and averaging.
-- ---------------------------------------------------------------

/-- loadDbForDate of lautstaerke.js (Kirill_Website): val starts at 0;
data.db is used when the key is present, else the nested
avg_sensor_day.db when present, else val stays 0; the !isNaN guard then
always passes, so every successfully parsed file yields a reading. -/
def kirillDbVal (data : TotalsJson) : ℚ :=
  match data.db with
  | some v => v
  | none =>
    match data.avg_sensor_day with
    | some a => match a.db with
      | some v => v
      | none => 0
    | none => 0

/-- The date loop of loadLautstaerke (Kirill_Website): each successfully
parsed file adds its reading and bumps the count.  (The fetch has no
resp.ok check, but the body of an error response fails to parse, so a
non-ok response is caught like a network error.) -/
def kirillDbLoop (fetch : ℤ → FetchOutcome) : List ℤ → ℚ × ℕ
  | [] => (0, 0)
  | d :: rest =>
    let (t, c) := kirillDbLoop fetch rest
    match safeFetchJson (fetch d) with
    | some data => (kirillDbVal data + t, c + 1)
    | none => (t, c)

/-- avgDb of loadLautstaerke (Kirill_Website):
count > 0 ? Math.round(totalDb / count) : 0. -/
def kirillLautstaerkeAvg (dates : List ℤ) (fetch : ℤ → FetchOutcome) : ℤ :=
  let (t, c) := kirillDbLoop fetch dates
  if c > 0 then jsRound (t / c) else 0

/-- loadDbForDate of the part_000 bundle: val starts at NaN; data.db is
used when it is a number, else the nested avg_sensor_day.db when that is
a number; the !isNaN guard admits a reading only when one of the two was
found. -/
def part0DbVal (data : TotalsJson) : Option ℚ :=
  match data.db with
  | some v => some v
  | none =>
    match data.avg_sensor_day with
    | some a => a.db
    | none => none

/-- The date loop of loadLautstaerke (part_000): only dates with a
numeric db reading contribute. -/
def part0DbLoop (fetch : ℤ → FetchOutcome) : List ℤ → ℚ × ℕ
  | [] => (0, 0)
  | d :: rest =>
    let (t, c) := part0DbLoop fetch rest
    match (safeFetchJson (fetch d)).bind part0DbVal with
    | some v => (v + t, c + 1)
    | none => (t, c)

/-- The db value taken from the department fallback totals.json in
loadLautstaerke (part_000): here the nested avg_sensor_day.db is checked
first and the top-level db is the fallback; NaN when neither is a
number. -/
def part0FallbackVal (data : TotalsJson) : Option ℚ :=
  match data.avg_sensor_day.bind (fun a => a.db) with
  | some v => some v
  | none => data.db

/-- loadLautstaerke (part_000): date loop; when the count is 0, consult
the department totals.json, and when it yields a numeric db take it as
the single reading; then count > 0 ? Math.round(totalDb / count) : 0. -/
def part0Lautstaerke (dates : List ℤ) (fetch : ℤ → FetchOutcome)
    (fallback : FetchOutcome) : ℤ :=
  let (t, c) := part0DbLoop fetch dates
  let (t, c) :=
    if c = 0 then
      match (safeFetchJson fallback).bind part0FallbackVal with
      | some v => (v, 1)
      | none => (t, c)
    else (t, c)
  if c > 0 then jsRound (t / c) else 0

/-- The readings that the part_000 date loop counts, as a list: one
entry per date whose fetch succeeded and whose record carries a numeric
db (top-level or nested). -/
def part0DbReads (fetch : ℤ → FetchOutcome) (dates : List ℤ) : List ℚ :=
  dates.filterMap (fun d => (safeFetchJson (fetch d)).bind part0DbVal)

-- ---------------------------------------------------------------
-- normalize / updateTable (src/unnamed/part_004).
-- ---------------------------------------------------------------

/-- A JS value as it can appear in a field of a parsed JSON object:
undefined (missing key), null, a number (finite, or an infinity from an
overflowing JSON literal), a string, or a boolean.  Composite values
(arrays, objects) are omitted: their number coercion also yields a
finite double or NaN and adds no behaviour the theorems distinguish. -/
inductive JVal where
  | undef
  | jsNull
  | num (n : JNum)
  | str (s : String)
  | bool (b : Bool)
  deriving DecidableEq, Repr

/-- Model of the JS string-to-number coercion: a trimmed empty string is
0, a decimal integer numeral is its value, anything else is NaN.
(The full JS grammar also accepts fractions, exponents and hex; only
finite-versus-NaN matters downstream, which this model preserves.) -/
def strToNumber (s : String) : JNum :=
  if s.trim = "" then .fin 0
  else match s.trim.toInt? with
  | some n => .fin n
  | none => .nan

/-- The JS Number() coercion. -/
def jsToNumber : JVal → JNum
  | .undef => .nan
  | .jsNull => .fin 0
  | .num n => n
  | .str s => strToNumber s
  | .bool b => .fin (if b then 1 else 0)

/-- The JS nullish coalescing operator (a ?? b). -/
def jsCoalesce (a b : JVal) : JVal :=
  match a with
  | .undef => b
  | .jsNull => b
  | _ => a

/-- The raw parsed summary.json object as normalize (part_004) reads it:
each accessed key is a JS value, undefined when absent. -/
structure RawSummary where
  good : JVal
  Good : JVal
  meh : JVal
  Meh : JVal
  bad : JVal
  Bad : JVal
  last_update : JVal
  lastUpdate : JVal
  deriving DecidableEq, Repr

/-- The record normalize returns. -/
structure NormSummary where
  good : JNum
  meh : JNum
  bad : JNum
  last_update : JVal
  deriving DecidableEq, Repr

/-- One field of normalize (part_004):
Number(x ?? X ?? 0) || 0. -/
def normalizeField (x X : JVal) : JNum :=
  jsOr (jsToNumber (jsCoalesce x (jsCoalesce X (.num (.fin 0))))) (.fin 0)

/-- normalize (part_004). -/
def normalize (raw : RawSummary) : NormSummary :=
  { good := normalizeField raw.good raw.Good,
    meh := normalizeField raw.meh raw.Meh,
    bad := normalizeField raw.bad raw.Bad,
    last_update := jsCoalesce raw.last_update (jsCoalesce raw.lastUpdate .jsNull) }

/-- The sum obj.good + obj.meh + obj.bad that updateTable (part_004)
writes into the valSum cell. -/
def normSum (n : NormSummary) : JNum := jsAdd (jsAdd n.good n.meh) n.bad

-- ---------------------------------------------------------------
-- Spec-side definitions (stated from the claims, for refinement).
-- ---------------------------------------------------------------

/-- The summaries of exactly the dates whose fetch succeeded, in date
order (spec wording of the totals claim). -/
def fetchedSummaries (fetch : ℤ → FetchOutcome) (dates : List ℤ) :
    List TotalsJson :=
  dates.filterMap (fun d => safeFetchJson (fetch d))

/-- Spec wording: the field-wise sum of good over exactly the dates
whose fetch succeeded. -/
def specGoodSum (fetch : ℤ → FetchOutcome) (dates : List ℤ) : ℚ :=
  ((fetchedSummaries fetch dates).map (fun s => orZero s.good)).sum

/-- Spec wording: the field-wise sum of meh. -/
def specMehSum (fetch : ℤ → FetchOutcome) (dates : List ℤ) : ℚ :=
  ((fetchedSummaries fetch dates).map (fun s => orZero s.meh)).sum

/-- Spec wording: the field-wise sum of bad. -/
def specBadSum (fetch : ℤ → FetchOutcome) (dates : List ℤ) : ℚ :=
  ((fetchedSummaries fetch dates).map (fun s => orZero s.bad)).sum

/-- Spec wording: the available daily average temperatures of month m —
the numeric avg_sensor_day.temp values of the days whose fetch
succeeded. -/
def specMonthTemps (year : ℤ) (fetch : ℕ → ℕ → FetchOutcome) (m : ℕ) :
    List ℚ :=
  (List.range' 1 (daysInMonth year m)).filterMap
    (fun d => (safeFetchJson (fetch m d)).bind
      (fun data => data.avg_sensor_day.bind (fun a => a.temp)))

/-- Spec wording of the db-field claim: check the nested form under
avg_sensor_day first and fall back to the top-level scalar only if the
nested form is absent. -/
def specNestedFirstDb (data : TotalsJson) : Option ℚ :=
  match data.avg_sensor_day.bind (fun a => a.db) with
  | some v => some v
  | none => data.db

-- ---------------------------------------------------------------
-- Concrete inputs used by counterexamples and witnesses.
-- ---------------------------------------------------------------

/-- Epoch day 6 is Wednesday 1970-01-07; its ISO week Monday is epoch
day 4. -/
def wedToday : ℤ := 6

/-- Week fetch pattern of the spec scenario: only Monday (epoch day 4)
has a file, with good 2, meh 1, bad 0, temp 20, db 40. -/
def mondayOnlyFetch : ℤ → FetchOutcome := fun d =>
  if d = 4 then .ok ⟨some 2, some 1, some 0, some ⟨some 20, some 40⟩, none⟩
  else .fetchErr

/-- Month fetch pattern: only day 1 has a file, carrying totals
5 / 1 / 2 and no avg_sensor_day block (so its series entry is 0). -/
def day1OnlyFetch : ℤ → FetchOutcome := fun d =>
  if d = 1 then .ok ⟨some 5, some 1, some 2, none, none⟩
  else .fetchErr

/-- A department fallback totals.json with totals 7 / 8 / 9 and no
avg_sensor_day block. -/
def fallback789 : FetchOutcome := .ok ⟨some 7, some 8, some 9, none, none⟩

/-- Week fetch pattern for the fallback claim: Monday (epoch day 4) has
a file with totals 5 / 1 / 2 and a temperature of exactly 0. -/
def mondayTempZeroFetch : ℤ → FetchOutcome := fun d =>
  if d = 4 then .ok ⟨some 5, some 1, some 2, some ⟨some 0, none⟩, none⟩
  else .fetchErr

/-- A record carrying both a top-level db (10) and a nested
avg_sensor_day.db (20). -/
def bothDbData : TotalsJson := ⟨none, none, none, some ⟨none, some 20⟩, some 10⟩

/-- Year fetch pattern: only September 1 has a file, with a daily
average temperature of 30. -/
def sep1OnlyFetch : ℕ → ℕ → FetchOutcome := fun m d =>
  if m = 9 ∧ d = 1 then .ok ⟨none, none, none, some ⟨some 30, none⟩, none⟩
  else .fetchErr

/-- Two-date dB fetch pattern: date 0 has a record whose only db is the
nested value 40; date 1 has a record with no db anywhere. -/
def dbPairFetch : ℤ → FetchOutcome := fun d =>
  if d = 0 then .ok ⟨none, none, none, some ⟨none, some 40⟩, none⟩
  else if d = 1 then .ok ⟨none, none, none, none, none⟩
  else .fetchErr

/-- A raw summary whose good field is an overflowed JSON number
(Infinity after parsing). -/
def infRaw : RawSummary :=
  ⟨.num .inf, .undef, .num (.fin 1), .undef, .num (.fin 2), .undef, .undef, .undef⟩

/-- A raw summary with every accessed key absent. -/
def undefRaw : RawSummary :=
  ⟨.undef, .undef, .undef, .undef, .undef, .undef, .undef, .undef⟩

-- ===============================================================
-- Helper lemmas.
-- ===============================================================

theorem rangeLoop_series (fetch : ℤ → FetchOutcome) (ds : List ℤ) :
    (rangeLoop fetch ds).2.2.2 = ds.map (rangeEntry fetch) := by
  induction ds with
  | nil => rfl
  | cons d rest ih =>
    rcases hr : rangeLoop fetch rest with ⟨g, me, b, s⟩
    rw [hr] at ih
    simp only [] at ih
    simp only [rangeLoop, hr, List.map_cons]
    cases h : safeFetchJson (fetch d) <;> simp [h, rangeEntry, ih]

theorem rangeLoop_good (fetch : ℤ → FetchOutcome) (ds : List ℤ) :
    (rangeLoop fetch ds).1 = specGoodSum fetch ds := by
  induction ds with
  | nil => rfl
  | cons d rest ih =>
    rcases hr : rangeLoop fetch rest with ⟨g, me, b, s⟩
    rw [hr] at ih
    simp only [] at ih
    simp only [rangeLoop, hr]
    cases h : safeFetchJson (fetch d) <;>
      simp [h, specGoodSum, fetchedSummaries, ih]

theorem rangeLoop_meh (fetch : ℤ → FetchOutcome) (ds : List ℤ) :
    (rangeLoop fetch ds).2.1 = specMehSum fetch ds := by
  induction ds with
  | nil => rfl
  | cons d rest ih =>
    rcases hr : rangeLoop fetch rest with ⟨g, me, b, s⟩
    rw [hr] at ih
    simp only [] at ih
    simp only [rangeLoop, hr]
    cases h : safeFetchJson (fetch d) <;>
      simp [h, specMehSum, fetchedSummaries, ih]

theorem rangeLoop_bad (fetch : ℤ → FetchOutcome) (ds : List ℤ) :
    (rangeLoop fetch ds).2.2.1 = specBadSum fetch ds := by
  induction ds with
  | nil => rfl
  | cons d rest ih =>
    rcases hr : rangeLoop fetch rest with ⟨g, me, b, s⟩
    rw [hr] at ih
    simp only [] at ih
    simp only [rangeLoop, hr]
    cases h : safeFetchJson (fetch d) <;>
      simp [h, specBadSum, fetchedSummaries, ih]

theorem appWeekLoop_series_length (fetch : ℤ → FetchOutcome) (ds : List ℤ) :
    (appWeekLoop fetch ds).2.2.2.length = ds.length := by
  induction ds with
  | nil => rfl
  | cons d rest ih =>
    rcases hr : appWeekLoop fetch rest with ⟨g, me, b, s⟩
    rw [hr] at ih
    simp only [] at ih
    simp only [appWeekLoop, hr]
    cases h : safeFetchJson (fetch d) <;> simp [h, ih]

theorem weekDates_length (today : ℤ) :
    (weekDates today).length = ((jsGetDay today + 6) % 7).toNat + 1 := by
  rw [weekDates, List.length_map, List.length_range]

theorem weekDates_length_le (today : ℤ) : (weekDates today).length ≤ 7 := by
  rw [weekDates_length]
  have h0 : 0 ≤ (jsGetDay today + 6) % 7 := Int.emod_nonneg _ (by norm_num)
  have h1 : (jsGetDay today + 6) % 7 < 7 := Int.emod_lt_of_pos _ (by norm_num)
  omega

theorem monthDates_length (dim : ℕ) : (monthDates dim).length = dim := by
  simp [monthDates]

theorem part0DbLoop_eq (fetch : ℤ → FetchOutcome) (ds : List ℤ) :
    part0DbLoop fetch ds =
      ((part0DbReads fetch ds).sum, (part0DbReads fetch ds).length) := by
  induction ds with
  | nil => rfl
  | cons d rest ih =>
    simp only [part0DbLoop, ih]
    cases h : (safeFetchJson (fetch d)).bind part0DbVal <;>
      simp [h, part0DbReads, List.filterMap_cons]

theorem kirillDbLoop_none (fetch : ℤ → FetchOutcome) (ds : List ℤ)
    (h : ∀ d ∈ ds, safeFetchJson (fetch d) = none) :
    kirillDbLoop fetch ds = (0, 0) := by
  induction ds with
  | nil => rfl
  | cons d rest ih =>
    have hd := h d (by simp)
    have ih := ih (fun x hx => h x (by simp [hx]))
    simp [kirillDbLoop, ih, hd]

theorem monthStats_tempSum (fetch : ℕ → ℕ → FetchOutcome) (m : ℕ)
    (days : List ℕ) :
    (monthStats fetch m days).2.2.2.1 =
      ((days.filterMap (fun d => (safeFetchJson (fetch m d)).bind
        (fun data => data.avg_sensor_day.bind (fun a => a.temp)))).sum) := by
  induction days with
  | nil => rfl
  | cons d rest ih =>
    rcases hr : monthStats fetch m rest with ⟨g, me, b, ts, tc⟩
    rw [hr] at ih
    simp only [] at ih
    simp only [monthStats, hr, List.filterMap_cons]
    cases h : safeFetchJson (fetch m d) with
    | none => simp [h, ih]
    | some data =>
      cases ha : data.avg_sensor_day with
      | none => simp [h, ha, ih]
      | some a =>
        cases ht : a.temp with
        | none => simp [h, ha, ht, ih]
        | some t => simp [h, ha, ht, ih, add_comm]

theorem monthStats_tempCount (fetch : ℕ → ℕ → FetchOutcome) (m : ℕ)
    (days : List ℕ) :
    (monthStats fetch m days).2.2.2.2 =
      ((days.filterMap (fun d => (safeFetchJson (fetch m d)).bind
        (fun data => data.avg_sensor_day.bind (fun a => a.temp)))).length) := by
  induction days with
  | nil => rfl
  | cons d rest ih =>
    rcases hr : monthStats fetch m rest with ⟨g, me, b, ts, tc⟩
    rw [hr] at ih
    simp only [] at ih
    simp only [monthStats, hr, List.filterMap_cons]
    cases h : safeFetchJson (fetch m d) with
    | none => simp [h, ih]
    | some data =>
      cases ha : data.avg_sensor_day with
      | none => simp [h, ha, ih]
      | some a =>
        cases ht : a.temp with
        | none => simp [h, ha, ht, ih]
        | some t => simp [h, ha, ht, ih]

theorem yearLoop_series (year : ℤ) (fetch : ℕ → ℕ → FetchOutcome)
    (ms : List ℕ) :
    (yearLoop year fetch ms).2.2.2 =
      ms.map (fun m => some (yearMonthEntry year fetch m : ℚ)) := by
  induction ms with
  | nil => rfl
  | cons m rest ih =>
    rcases hr : yearLoop year fetch rest with ⟨g, me, b, s⟩
    rw [hr] at ih
    simp only [] at ih
    simp only [yearLoop, hr, List.map_cons]
    rcases hm : monthStats fetch m (List.range' 1 (daysInMonth year m)) with
      ⟨mg, mme, mb, ts, tc⟩
    simp [hm, ih]

theorem classify_formula (v : ℤ) : classify v =
    if 0 ≤ v ∧ v ≤ 30 then some ⟨"icon-maus", "Maus", 0, 30⟩
    else if 31 ≤ v ∧ v ≤ 50 then some ⟨"icon-sprechen", "Sprechen", 31, 50⟩
    else if 51 ≤ v ∧ v ≤ 70 then some ⟨"icon-musik", "Musik", 51, 70⟩
    else if 71 ≤ v ∧ v ≤ 90 then some ⟨"icon-auto", "Auto", 71, 90⟩
    else if 91 ≤ v ∧ v ≤ 200 then some ⟨"icon-flugzeug", "Flugzeug", 91, 200⟩
    else none := by
  unfold classify lautstaerkeLevels
  simp only [List.find?, Bool.and_eq_decide]
  repeat' split
  all_goals simp_all [decide_eq_true_eq]

theorem normalizeField_not_nan (x X : JVal) : normalizeField x X ≠ .nan := by
  unfold normalizeField jsOr
  rcases jsToNumber (jsCoalesce x (jsCoalesce X (.num (.fin 0)))) with q | _ | _ | _ <;>
    simp [jsTruthy] <;> split_ifs <;> simp

theorem normalizeField_not_finite (x X : JVal)
    (h : (normalizeField x X).isFinite = false) :
    normalizeField x X = jsToNumber (jsCoalesce x (jsCoalesce X (.num (.fin 0)))) ∧
    (normalizeField x X = JNum.inf ∨ normalizeField x X = JNum.ninf) := by
  unfold normalizeField jsOr at h ⊢
  rcases hn : jsToNumber (jsCoalesce x (jsCoalesce X (.num (.fin 0)))) with q | _ | _ | _ <;>
    simp only [hn, jsTruthy] at h ⊢ <;>
    (split_ifs at h ⊢ <;> simp_all [JNum.isFinite])

theorem jsAdd_finite (a b : JNum) (ha : a.isFinite = true)
    (hb : b.isFinite = true) : (jsAdd a b).isFinite = true := by
  cases a <;> cases b <;> simp_all [jsAdd, JNum.isFinite]

-- ===============================================================
-- Claim theorems.
-- ===============================================================

/-- Claim C4: level classification maps a rounded reading to exactly one
band by first-match order over the fixed ascending table with inclusive
bounds; 30 is Maus, 31 is Sprechen, 200 is Flugzeug, 250 is
unclassified; a value is classified exactly when it lies in 0..200, and
any band containing the value is the one returned. -/
theorem C4_level_classification :
    classify 30 = some ⟨"icon-maus", "Maus", 0, 30⟩ ∧
    classify 31 = some ⟨"icon-sprechen", "Sprechen", 31, 50⟩ ∧
    classify 200 = some ⟨"icon-flugzeug", "Flugzeug", 91, 200⟩ ∧
    classify 250 = none ∧
    (∀ v : ℤ, (classify v).isSome ↔ 0 ≤ v ∧ v ≤ 200) ∧
    (∀ v : ℤ, ∀ l ∈ lautstaerkeLevels,
      l.min ≤ v → v ≤ l.max → classify v = some l) := by
  refine ⟨by decide, by decide, by decide, by decide, ?_, ?_⟩
  · intro v
    rw [classify_formula]
    split_ifs <;> simp <;> omega
  · intro v l hl h1 h2
    simp only [lautstaerkeLevels, List.mem_cons, List.mem_singleton] at hl
    rcases hl with rfl | rfl | rfl | rfl | rfl | h
    · dsimp at h1 h2; rw [classify_formula]; split_ifs <;> first | rfl | (exfalso; omega)
    · dsimp at h1 h2; rw [classify_formula]; split_ifs <;> first | rfl | (exfalso; omega)
    · dsimp at h1 h2; rw [classify_formula]; split_ifs <;> first | rfl | (exfalso; omega)
    · dsimp at h1 h2; rw [classify_formula]; split_ifs <;> first | rfl | (exfalso; omega)
    · dsimp at h1 h2; rw [classify_formula]; split_ifs <;> first | rfl | (exfalso; omega)
    · simp at h

/-- Witness for C4: the band properties applied at the value 42. -/
theorem C4_level_classification_witness :
    classify 42 = some ⟨"icon-sprechen", "Sprechen", 31, 50⟩ :=
  C4_level_classification.2.2.2.2.2 42 ⟨"icon-sprechen", "Sprechen", 31, 50⟩
    (by decide) (by decide) (by decide)

/-- Claim C8: for every value of today, the week scope enumerates
exactly the dates from the Monday of the current ISO week through today,
inclusive, in increasing order; the first date is a Monday at most six
days back, and it is the unique such Monday. -/
theorem C8_week_enumeration (today : ℤ) :
    (∀ x : ℤ, x ∈ weekDates today ↔ mondayOf today ≤ x ∧ x ≤ today) ∧
    List.Pairwise (· < ·) (weekDates today) ∧
    jsGetDay (mondayOf today) = 1 ∧
    mondayOf today ≤ today ∧ today - mondayOf today < 7 ∧
    (∀ x : ℤ, jsGetDay x = 1 → x ≤ today → today - x < 7 →
      x = mondayOf today) := by
  have h0 : 0 ≤ (jsGetDay today + 6) % 7 := Int.emod_nonneg _ (by norm_num)
  have h1 : (jsGetDay today + 6) % 7 < 7 := Int.emod_lt_of_pos _ (by norm_num)
  refine ⟨?_, ?_, ?_, ?_, ?_, ?_⟩
  · intro x
    simp only [weekDates, List.mem_map, List.mem_range]
    constructor
    · rintro ⟨i, hi, rfl⟩
      unfold mondayOf
      omega
    · rintro ⟨hl, hr⟩
      refine ⟨(x - mondayOf today).toNat, ?_, ?_⟩ <;> unfold mondayOf at * <;> omega
  · refine List.Pairwise.map _ (fun a b hab => ?_) (List.pairwise_lt_range _)
    omega
  · unfold mondayOf jsGetDay
    omega
  · unfold mondayOf
    omega
  · unfold mondayOf
    omega
  · intro x hx hle hlt
    unfold jsGetDay at hx
    unfold mondayOf jsGetDay
    omega

/-- Witness for C8: Monday (epoch day 4) lies in the week of Wednesday
epoch day 6, and on the Sunday epoch day 3 the computed Monday is a
Monday. -/
theorem C8_week_enumeration_witness :
    (4 : ℤ) ∈ weekDates 6 ∧ jsGetDay (mondayOf 3) = 1 :=
  ⟨((C8_week_enumeration 6).1 4).mpr (by decide), (C8_week_enumeration 3).2.2.1⟩

/-- Claim C9: after every loudness display update, at most one icon is
active, and the result is independent of the prior icon states (all
icons are reset before classification). -/
theorem C9_single_active_icon (db : ℤ) (st st2 : LautIcons) :
    countActive (updateLautstaerkeAnzeige db st) ≤ 1 ∧
    updateLautstaerkeAnzeige db st = updateLautstaerkeAnzeige db st2 := by
  constructor
  · unfold updateLautstaerkeAnzeige resetIcons
    rw [classify_formula]
    split_ifs <;> simp [addActive, countActive]
  · unfold updateLautstaerkeAnzeige resetIcons
    rfl

/-- Counterexample to claim C1: on a Wednesday with only Monday data,
the week loader of dataLoader.js hands the chart a series of 3 entries,
not the 7 of the week label count. -/
theorem C1_week_series_unpadded :
    (loadWeekData wedToday mondayOnlyFetch .fetchErr).series.length = 3 ∧
    (3 : ℕ) ≠ 7 := by
  refine ⟨by decide, by decide⟩

/-- Claim C1 as amended: the day series always has 24 entries, the month
series always daysInMonth entries, the year series always 12; the week
series of dataLoader.js has one entry per enumerated day — length 7 only
via the fallback substitution — while the app.js week loader pads to 7;
and with no usable fallback the month series has entry 0 exactly at the
dates that yielded no data. -/
theorem C1_series_lengths :
    (∀ f fb : FetchOutcome, (loadDayData f fb).series.length = 24) ∧
    (∀ (dim : ℕ) (f : ℤ → FetchOutcome) (fb : FetchOutcome),
      (loadMonthData dim f fb).series.length = dim) ∧
    (∀ (y : ℤ) (f : ℕ → ℕ → FetchOutcome) (fb : FetchOutcome),
      (loadYearData y f fb).series.length = 12) ∧
    (∀ (t : ℤ) (f : ℤ → FetchOutcome) (fb : FetchOutcome),
      (loadWeekData t f fb).series.length = (weekDates t).length ∨
      (loadWeekData t f fb).series.length = 7) ∧
    (∀ (t : ℤ) (f : ℤ → FetchOutcome), (loadWeekRange t f).series.length = 7) ∧
    (∀ (dim : ℕ) (f : ℤ → FetchOutcome) (fb : FetchOutcome),
      safeFetchJson fb = none →
      (loadMonthData dim f fb).series = (monthDates dim).map (rangeEntry f)) := by
  refine ⟨?_, ?_, ?_, ?_, ?_, ?_⟩
  · intro f fb
    cases h : safeFetchJson f <;> cases h2 : safeFetchJson fb <;>
      simp [loadDayData, h, h2]
  · intro dim f fb
    rcases hr : rangeLoop f (monthDates dim) with ⟨g, me, b, s⟩
    have hs : s.length = dim := by
      have h := rangeLoop_series f (monthDates dim)
      rw [hr] at h
      simp only [] at h
      rw [h, List.length_map, monthDates_length]
    simp only [loadMonthData, hr]
    split_ifs with hz
    · cases h2 : safeFetchJson fb <;> simp [h2, hs]
    · simpa using hs
  · intro y f fb
    rcases hy : yearLoop y f (List.range' 1 12) with ⟨g, me, b, s⟩
    have hs : s.length = 12 := by
      have h := yearLoop_series y f (List.range' 1 12)
      rw [hy] at h
      simp only [] at h
      rw [h, List.length_map, List.length_range']
    simp only [loadYearData, hy]
    split_ifs with hz
    · cases h2 : safeFetchJson fb <;> simp [h2, hs]
    · simpa using hs
  · intro t f fb
    rcases hr : rangeLoop f (weekDates t) with ⟨g, me, b, s⟩
    have hs : s.length = (weekDates t).length := by
      have h := rangeLoop_series f (weekDates t)
      rw [hr] at h
      simp only [] at h
      rw [h, List.length_map]
    simp only [loadWeekData, hr]
    split_ifs with hz
    · cases h2 : safeFetchJson fb <;> simp [h2, hs]
    · simp [hs]
  · intro t f
    rcases hw : appWeekLoop f (weekDates t) with ⟨g, me, b, s⟩
    have hs : s.length = (weekDates t).length := by
      have h := appWeekLoop_series_length f (weekDates t)
      rw [hw] at h
      simpa using h
    have hle := weekDates_length_le t
    simp only [loadWeekRange, hw]
    simp [List.length_append, List.length_replicate]
    omega
  · intro dim f fb hfb
    rcases hr : rangeLoop f (monthDates dim) with ⟨g, me, b, s⟩
    have hs : s = (monthDates dim).map (rangeEntry f) := by
      have h := rangeLoop_series f (monthDates dim)
      rw [hr] at h
      simpa using h
    simp only [loadMonthData, hr]
    split_ifs with hz <;> simp [hfb, hs]

/-- Witness for C1: the month-series characterization applied with a
missing fallback file. -/
theorem C1_series_lengths_witness :
    safeFetchJson FetchOutcome.fetchErr = none ∧
    (loadMonthData 31 day1OnlyFetch FetchOutcome.fetchErr).series =
      (monthDates 31).map (rangeEntry day1OnlyFetch) :=
  ⟨rfl, C1_series_lengths.2.2.2.2.2 31 day1OnlyFetch FetchOutcome.fetchErr rfl⟩

/-- Counterexample to claim C2: a month whose only data-bearing day has
totals 5/1/2 but a zero series entry; the all-zeros fallback replaces
the reported totals with the fallback totals 7/8/9, so the displayed
good total is not the sum over fetched dates. -/
theorem C2_fallback_overrides_totals :
    (loadMonthData 31 day1OnlyFetch fallback789).good = 7 ∧
    specGoodSum day1OnlyFetch (monthDates 31) = 5 ∧ (7 : ℚ) ≠ 5 := by
  refine ⟨by decide, ?_, by norm_num⟩
  have h1 : fetchedSummaries day1OnlyFetch (monthDates 31) =
      [⟨some 5, some 1, some 2, none, none⟩] := by decide
  unfold specGoodSum
  rw [h1]
  simp [orZero]

/-- Claim C2 as amended: whenever the all-zeros fallback does not
substitute (some series entry is nonzero, or the fallback file is
missing), the month totals are exactly the field-wise sums over the
dates whose fetch succeeded; every failed fetch kind contributes
nothing, and the loop runs over all dates regardless of failures. -/
theorem C2_month_totals (dim : ℕ) (f : ℤ → FetchOutcome) (fb : FetchOutcome)
    (h : allZeros (rangeLoop f (monthDates dim)).2.2.2 = false ∨
      safeFetchJson fb = none) :
    (loadMonthData dim f fb).good = specGoodSum f (monthDates dim) ∧
    (loadMonthData dim f fb).meh = specMehSum f (monthDates dim) ∧
    (loadMonthData dim f fb).bad = specBadSum f (monthDates dim) ∧
    safeFetchJson .fetchErr = none ∧ safeFetchJson .httpErr = none ∧
    safeFetchJson .badJson = none := by
  rcases hr : rangeLoop f (monthDates dim) with ⟨g, me, b, s⟩
  rw [hr] at h
  have hg := rangeLoop_good f (monthDates dim)
  have hme := rangeLoop_meh f (monthDates dim)
  have hb := rangeLoop_bad f (monthDates dim)
  rw [hr] at hg hme hb
  simp only [] at hg hme hb h
  simp only [loadMonthData, hr]
  rcases h with h | h
  · refine ⟨?_, ?_, ?_, rfl, rfl, rfl⟩ <;> simp [h, hg, hme, hb]
  · refine ⟨?_, ?_, ?_, rfl, rfl, rfl⟩ <;> split_ifs with hz <;>
      simp [h, hg, hme, hb]

/-- Witness for C2: the totals equation applied to a month with one
data-bearing day and no fallback file. -/
theorem C2_month_totals_witness :
    (loadMonthData 31 day1OnlyFetch FetchOutcome.fetchErr).good =
      specGoodSum day1OnlyFetch (monthDates 31) :=
  (C2_month_totals 31 day1OnlyFetch FetchOutcome.fetchErr (Or.inr rfl)).1

/-- Counterexample to claim C3: on a Wednesday, Monday has a file with
totals 5/1/2 and temperature exactly 0; the week loop therefore produces
an all-zero series, so the fallback is consulted and its totals 7/8/9
replace the computed ones — the fallback is used although a date in the
range did yield data. -/
theorem C3_fallback_despite_data :
    safeFetchJson (mondayTempZeroFetch 4) =
      some ⟨some 5, some 1, some 2, some ⟨some 0, none⟩, none⟩ ∧
    rangeLoop mondayTempZeroFetch (weekDates wedToday) =
      (5, 1, 2, [some 0, some 0, some 0]) ∧
    loadWeekData wedToday mondayTempZeroFetch fallback789 =
      ⟨7, 8, 9, List.replicate 7 (some 0)⟩ ∧ (7 : ℚ) ≠ 5 := by
  have hw : weekDates wedToday = [4, 5, 6] := by decide
  have hr : rangeLoop mondayTempZeroFetch (weekDates wedToday) =
      (5, 1, 2, [some 0, some 0, some 0]) := by
    rw [hw]
    simp only [rangeLoop, mondayTempZeroFetch, safeFetchJson]
    norm_num [tempEntry, orZero]
  refine ⟨rfl, hr, ?_, by norm_num⟩
  simp only [loadWeekData, hr]
  norm_num [allZeros, fallback789, safeFetchJson, orZero, tempEntry]

/-- Claim C3 as amended: the fallback is consulted exactly when every
computed series entry is 0 — which includes dates whose record carried a
zero or absent temperature — and, when the fallback file parses, it
substitutes its totals and one uniform series value; if every date of
the range yielded no data the condition indeed holds; the dB loader of
part_000 consults its fallback exactly when no date yielded a numeric dB
reading. -/
theorem C3_fallback_condition :
    (∀ (t : ℤ) (f : ℤ → FetchOutcome) (fb : FetchOutcome),
      allZeros (rangeLoop f (weekDates t)).2.2.2 = false →
      loadWeekData t f fb =
        ⟨(rangeLoop f (weekDates t)).1, (rangeLoop f (weekDates t)).2.1,
         (rangeLoop f (weekDates t)).2.2.1, (rangeLoop f (weekDates t)).2.2.2⟩) ∧
    (∀ (t : ℤ) (f : ℤ → FetchOutcome) (fb : FetchOutcome) (base : TotalsJson),
      allZeros (rangeLoop f (weekDates t)).2.2.2 = true →
      safeFetchJson fb = some base →
      loadWeekData t f fb =
        ⟨orZero base.good, orZero base.meh, orZero base.bad,
         List.replicate 7 (tempEntry base)⟩) ∧
    (∀ (t : ℤ) (f : ℤ → FetchOutcome),
      (∀ d ∈ weekDates t, safeFetchJson (f d) = none) →
      allZeros (rangeLoop f (weekDates t)).2.2.2 = true) ∧
    (∀ (dates : List ℤ) (f : ℤ → FetchOutcome),
      (part0DbLoop f dates).2 = 0 ↔
        ∀ d ∈ dates, (safeFetchJson (f d)).bind part0DbVal = none) ∧
    (∀ (dates : List ℤ) (f : ℤ → FetchOutcome) (fb fb2 : FetchOutcome),
      (part0DbLoop f dates).2 ≠ 0 →
      part0Lautstaerke dates f fb = part0Lautstaerke dates f fb2) := by
  refine ⟨?_, ?_, ?_, ?_, ?_⟩
  · intro t f fb h
    rcases hr : rangeLoop f (weekDates t) with ⟨g, me, b, s⟩
    rw [hr] at h
    simp only [] at h
    simp [loadWeekData, hr, h]
  · intro t f fb base h hfb
    rcases hr : rangeLoop f (weekDates t) with ⟨g, me, b, s⟩
    rw [hr] at h
    simp only [] at h
    simp [loadWeekData, hr, h, hfb]
  · intro t f h
    rw [rangeLoop_series]
    unfold allZeros
    rw [List.all_eq_true]
    intro x hx
    rcases List.mem_map.mp hx with ⟨d, hd, rfl⟩
    simp [rangeEntry, h d hd]
  · intro dates f
    rw [part0DbLoop_eq]
    simp [part0DbReads, List.length_eq_zero, List.filterMap_eq_nil_iff]
  · intro dates f fb fb2 h
    rw [part0DbLoop_eq] at h
    simp only [] at h
    simp only [part0Lautstaerke, part0DbLoop_eq]
    simp [h]

/-- Witness for C3: the substitution equation applied to a week with no
data at all and a present fallback file. -/
theorem C3_fallback_condition_witness :
    loadWeekData 6 (fun _ => FetchOutcome.fetchErr) fallback789 =
      ⟨7, 8, 9, List.replicate 7 (some 0)⟩ := by
  have h := C3_fallback_condition.2.1 6 (fun _ => FetchOutcome.fetchErr)
    fallback789 ⟨some 7, some 8, some 9, none, none⟩ (by decide) rfl
  exact h

/-- Counterexample to claim C5: on a record carrying both a top-level db
(10) and a nested avg_sensor_day.db (20), loadDbForDate takes the
top-level 10 in both variants, while the nested-first rule of the claim
would take 20. -/
theorem C5_nested_not_first :
    kirillDbVal bothDbData = 10 ∧ part0DbVal bothDbData = some 10 ∧
    specNestedFirstDb bothDbData = some 20 ∧ (10 : ℚ) ≠ 20 := by
  refine ⟨by decide, by decide, by decide, by norm_num⟩

/-- Claim C5 as amended: loadDbForDate checks the top-level db first and
falls back to the nested avg_sensor_day.db only when the top-level field
is absent (in which case the Kirill_Website variant further defaults to
0). -/
theorem C5_db_precedence (data : TotalsJson) :
    (∀ v : ℚ, data.db = some v →
      part0DbVal data = some v ∧ kirillDbVal data = v) ∧
    (data.db = none →
      part0DbVal data = data.avg_sensor_day.bind (fun a => a.db) ∧
      kirillDbVal data = orZero (data.avg_sensor_day.bind (fun a => a.db))) := by
  constructor
  · intro v hv
    constructor <;> simp [part0DbVal, kirillDbVal, hv]
  · intro h
    rcases hasd : data.avg_sensor_day with _ | a
    · simp [part0DbVal, kirillDbVal, h, hasd, orZero]
    · rcases hdb : a.db with _ | v <;>
        simp [part0DbVal, kirillDbVal, h, hasd, hdb, orZero]

/-- Witness for C5: the precedence rule applied to the record that
carries both db forms. -/
theorem C5_db_precedence_witness :
    part0DbVal bothDbData = some 10 ∧ kirillDbVal bothDbData = 10 :=
  (C5_db_precedence bothDbData).1 10 rfl

/-- Counterexample to claim C6: in September 2025 only one day has data
(temperature 30); the public.js year loader divides by the 30 days of
the month and reports 1, while the mean of the available temperatures is
30. -/
theorem C6_public_divides_by_month_length :
    specMonthTemps 2025 sep1OnlyFetch 9 = [30] ∧
    publicYearMonthEntry 2025 sep1OnlyFetch 9 = .fin 1 ∧
    jsRound ((30 : ℚ) / 1) = 30 ∧ JNum.fin (1 : ℚ) ≠ JNum.fin 30 := by
  have hdim : daysInMonth 2025 9 = 30 := by decide
  have hl : List.range' 1 30 = [1, 2, 3, 4, 5, 6, 7, 8, 9, 10, 11, 12, 13,
      14, 15, 16, 17, 18, 19, 20, 21, 22, 23, 24, 25, 26, 27, 28, 29, 30] := by
    decide
  refine ⟨by decide, ?_, by norm_num [jsRound], by norm_num⟩
  simp only [publicYearMonthEntry, hdim, hl]
  simp only [publicMonthTemp, sep1OnlyFetch, safeFetchJson]
  norm_num [jsAdd, jsDivNat, jsRoundJ, jsRound]

/-- Claim C6 as amended: in the dataLoader.js year loader every month
entry is the rounded mean of that month's available daily temperatures
(0 when none), and the computed year series consists of exactly these 12
entries; the public.js variant instead divides by the month length. -/
theorem C6_year_month_mean (year : ℤ) (fetch : ℕ → ℕ → FetchOutcome) :
    (∀ m : ℕ, yearMonthEntry year fetch m =
      if specMonthTemps year fetch m = [] then 0
      else jsRound ((specMonthTemps year fetch m).sum /
        ((specMonthTemps year fetch m).length : ℚ))) ∧
    (yearLoop year fetch (List.range' 1 12)).2.2.2 =
      (List.range' 1 12).map (fun m => some (yearMonthEntry year fetch m : ℚ)) := by
  constructor
  · intro m
    unfold yearMonthEntry
    rcases hm : monthStats fetch m (List.range' 1 (daysInMonth year m)) with
      ⟨g, me, b, ts, tc⟩
    have h1 := monthStats_tempSum fetch m (List.range' 1 (daysInMonth year m))
    have h2 := monthStats_tempCount fetch m (List.range' 1 (daysInMonth year m))
    rw [hm] at h1 h2
    simp only [] at h1 h2
    have hspec : List.filterMap
        (fun d => (safeFetchJson (fetch m d)).bind
          (fun data => data.avg_sensor_day.bind (fun a => a.temp)))
        (List.range' 1 (daysInMonth year m)) = specMonthTemps year fetch m := rfl
    rw [hspec] at h1 h2
    subst h1
    subst h2
    by_cases hL : specMonthTemps year fetch m = []
    · simp [hL]
    · have hpos : 0 < (specMonthTemps year fetch m).length :=
        List.length_pos.mpr hL
      simp [hL, hpos]
  · exact yearLoop_series year fetch _

/-- Counterexample to claim C7: two dates with files, one whose only dB
is the nested 40, one with no dB field at all; the Kirill_Website
variant counts the second as a reading of 0 and reports 20, while the
mean of the available readings is 40. -/
theorem C7_kirill_counts_missing_db :
    kirillLautstaerkeAvg [0, 1] dbPairFetch = 20 ∧
    part0DbReads dbPairFetch [0, 1] = [40] ∧
    jsRound ((40 : ℚ) / 1) = 40 ∧ (20 : ℤ) ≠ 40 := by
  refine ⟨?_, by decide, by norm_num [jsRound], by norm_num⟩
  simp only [kirillLautstaerkeAvg, kirillDbLoop, dbPairFetch, safeFetchJson]
  norm_num [kirillDbVal, jsRound]

/-- Claim C7 as amended: in the part_000 loader the average dB is 0 when
no date (and no fallback) yields a numeric reading, and otherwise the
rounded mean of the dates with a numeric reading; the Kirill_Website
variant reports 0 when every fetch fails, but counts any parsed file as
a reading. -/
theorem C7_avg_db (dates : List ℤ) (f : ℤ → FetchOutcome) (fb : FetchOutcome) :
    (part0DbReads f dates = [] →
      (safeFetchJson fb).bind part0FallbackVal = none →
      part0Lautstaerke dates f fb = 0) ∧
    (part0DbReads f dates ≠ [] →
      part0Lautstaerke dates f fb =
        jsRound ((part0DbReads f dates).sum /
          ((part0DbReads f dates).length : ℚ))) ∧
    ((∀ d ∈ dates, safeFetchJson (f d) = none) →
      kirillLautstaerkeAvg dates f = 0) := by
  refine ⟨?_, ?_, ?_⟩
  · intro h0 hfb
    simp only [part0Lautstaerke, part0DbLoop_eq, h0, hfb]
    simp
  · intro hne
    have hlen : (part0DbReads f dates).length ≠ 0 := by
      simpa [List.length_eq_zero] using hne
    simp only [part0Lautstaerke, part0DbLoop_eq]
    simp [hlen]
  · intro h
    unfold kirillLautstaerkeAvg
    rw [kirillDbLoop_none f dates h]
    simp

/-- Witness for C7: the rounded-mean equation applied to the two-date
pattern. -/
theorem C7_avg_db_witness :
    part0Lautstaerke [0, 1] dbPairFetch FetchOutcome.fetchErr =
      jsRound ((part0DbReads dbPairFetch [0, 1]).sum /
        ((part0DbReads dbPairFetch [0, 1]).length : ℚ)) :=
  (C7_avg_db [0, 1] dbPairFetch FetchOutcome.fetchErr).2.1 (by decide)

/-- Counterexample to claim C10: an overflowed JSON numeric literal
reaches normalize as Infinity, which || passes through, so the good
field is not a finite number. -/
theorem C10_infinity_escapes :
    (normalize infRaw).good = JNum.inf ∧
    (normalize infRaw).good.isFinite = false := by
  exact ⟨by decide, by decide⟩

/-- Claim C10 as amended: normalize never returns NaN in good, meh or
bad — missing keys, null, NaN and non-numeric strings all collapse to
0 — and a non-finite field can only be the untouched ±Infinity of the
coalesced raw value; when the three fields are finite, the sum displayed
by updateTable is finite. -/
theorem C10_normalize (raw : RawSummary) :
    ((normalize raw).good ≠ JNum.nan ∧ (normalize raw).meh ≠ JNum.nan ∧
      (normalize raw).bad ≠ JNum.nan) ∧
    ((normalize raw).good.isFinite = false →
      (normalize raw).good =
        jsToNumber (jsCoalesce raw.good (jsCoalesce raw.Good (JVal.num (JNum.fin 0)))) ∧
      ((normalize raw).good = JNum.inf ∨ (normalize raw).good = JNum.ninf)) ∧
    ((normalize raw).good.isFinite = true → (normalize raw).meh.isFinite = true →
      (normalize raw).bad.isFinite = true →
      (normSum (normalize raw)).isFinite = true) := by
  refine ⟨⟨normalizeField_not_nan _ _, normalizeField_not_nan _ _,
    normalizeField_not_nan _ _⟩, ?_, ?_⟩
  · intro h
    exact normalizeField_not_finite _ _ h
  · intro h1 h2 h3
    exact jsAdd_finite _ _ (jsAdd_finite _ _ h1 h2) h3

/-- Witness for C10: the finiteness implications applied to the raw
summary with every key absent. -/
theorem C10_normalize_witness :
    (normalize undefRaw).good ≠ JNum.nan ∧
    (normSum (normalize undefRaw)).isFinite = true :=
  ⟨(C10_normalize undefRaw).1.1,
   (C10_normalize undefRaw).2.2 (by decide) (by decide) (by decide)⟩

end SIA
